import Mathlib

/-!
Shallow embedding of `src/destructiveclip.py` (DestructiveClip, an Inkscape
extension that destructively clips paths against a boundary path).

Coordinates are modelled as rationals (`ℚ`); the Python code works with
floats but every claim under study concerns the algorithm's branching and
arithmetic structure, which the exact rationals expose faithfully.

Points in the well-formed pipeline are pairs `(x, y)`.  For the malformed
input behaviour of `line_intersection` (a point list with fewer than two
components) a raw variant over `List ℚ` is also embedded, whose result type
has a dedicated constructor modelling the Python handler
`inkex.errormsg(...); sys.exit()` — a process abort, not a typed error.
-/

namespace DestructiveClip

section

/- Batteries marks the rational arithmetic operations `@[irreducible]`,
which blocks elaborator-side evaluation of concrete instances (`decide`);
the kernel itself reduces them either way.  Restore the ordinary status
for this verification development. -/
attribute [local semireducible] Rat.add Rat.mul Rat.sub Rat.inv

/-- A point: pair of coordinates `(x, y)`. -/
abbrev Point : Type := ℚ × ℚ

/-- A directed line segment `(from, to)`; the Python code represents it as a
two-element list `[p, q]`. -/
abbrev Seg : Type := Point × Point

/-- `self.TOLERANCE = 0.0001`: any two numbers within this distance are
considered equal. -/
def TOLERANCE : ℚ := 1 / 10000

/-- `approx_equal(a, b)`: `abs(a-b) <= self.TOLERANCE`. -/
def approx_equal (a b : ℚ) : Bool := decide (|a - b| ≤ TOLERANCE)

/-- `mid_point(line)`: the midpoint of a segment,
`[(line[0][0] + line[1][0])/2, (line[0][1] + line[1][1])/2]`. -/
def mid_point (line : Seg) : Point :=
  ((line.1.1 + line.2.1) / 2, (line.1.2 + line.2.2) / 2)

/-- `max_x(line_segments)`: starts `maxx = 0.0` and folds
`maxx = max(maxx, line[0][0]); maxx = max(maxx, line[1][0])` over the
segments. -/
def max_x (line_segments : List Seg) : ℚ :=
  line_segments.foldl (fun maxx line => max (max maxx line.1.1) line.2.1) 0

/-- The local `denominator` of `line_intersection`:
`-d_l2[0]*d_l1[1] + d_l1[0]*d_l2[1]` with `d_l1 = l1_to - l1_from` and
`d_l2 = l2_to - l2_from` (the cross product of the direction vectors). -/
def denom (l1_from l1_to l2_from l2_to : Point) : ℚ :=
  -(l2_to.1 - l2_from.1) * (l1_to.2 - l1_from.2) +
    (l1_to.1 - l1_from.1) * (l2_to.2 - l2_from.2)

/-- The local `s` of `line_intersection` (position along the second
segment): `(-d_l1[1]*(l1_from[0] - l2_from[0]) + d_l1[0]*(l1_from[1] -
l2_from[1])) / denominator`. -/
def sParam (l1_from l1_to l2_from l2_to : Point) : ℚ :=
  (-(l1_to.2 - l1_from.2) * (l1_from.1 - l2_from.1) +
      (l1_to.1 - l1_from.1) * (l1_from.2 - l2_from.2)) /
    denom l1_from l1_to l2_from l2_to

/-- The local `t` of `line_intersection` (position along the first
segment): `(+d_l2[0]*(l1_from[1] - l2_from[1]) - d_l2[1]*(l1_from[0] -
l2_from[0])) / denominator`. -/
def tParam (l1_from l1_to l2_from l2_to : Point) : ℚ :=
  ((l2_to.1 - l2_from.1) * (l1_from.2 - l2_from.2) -
      (l2_to.2 - l2_from.2) * (l1_from.1 - l2_from.1)) /
    denom l1_from l1_to l2_from l2_to

/-- `line_intersection(l1_from, l1_to, l2_from, l2_to)` on well-formed
(two-component) points: when the `denominator` is not `approx_equal` to
`0`, returns the point `[l1_from[0] + t*d_l1[0], l1_from[1] + t*d_l1[1]]`
provided `s >= 0 and s <= 1 and t >= 0 and t <= 1`, and `None` otherwise
(the Python function returns `None` in the `approx_equal` branch and falls
through to an implicit `None` when the `s`/`t` test fails). -/
def line_intersection (l1_from l1_to l2_from l2_to : Point) : Option Point :=
  if approx_equal (denom l1_from l1_to l2_from l2_to) 0 then
    none
  else
    let s := sParam l1_from l1_to l2_from l2_to
    let t := tParam l1_from l1_to l2_from l2_to
    if 0 ≤ s ∧ s ≤ 1 ∧ 0 ≤ t ∧ t ≤ 1 then
      some (l1_from.1 + t * (l1_to.1 - l1_from.1), l1_from.2 + t * (l1_to.2 - l1_from.2))
    else
      none

/-- Outcome of `line_intersection` on raw (list-shaped) points.  `ok r`
models a normal return (`r = none` for Python `None`); `processAbort`
models the `except IndexError:` handler, which prints `self.curve_error`
via `inkex.errormsg` and then calls `sys.exit()`, aborting the whole
process — no typed error object ever reaches the caller. -/
inductive RawResult : Type
  | ok (r : Option Point) : RawResult
  | processAbort : RawResult
deriving DecidableEq

/-- `line_intersection` on raw list points, as the Python code receives
them.  The `try` block indexes every point at `[0]` and `[1]`, so an
`IndexError` fires exactly when one of the four lists has fewer than two
components; the handler aborts the process. -/
def line_intersection_raw (l1_from l1_to l2_from l2_to : List ℚ) : RawResult :=
  match l1_from, l1_to, l2_from, l2_to with
  | x1 :: y1 :: _, x2 :: y2 :: _, x3 :: y3 :: _, x4 :: y4 :: _ =>
      .ok (line_intersection (x1, y1) (x2, y2) (x3, y3) (x4, y4))
  | _, _, _, _ => .processAbort

/-- A raw point as the path parser hands it over: the parameter list of one
drawing command (`cmd[1]`), not yet known to have two components. -/
abbrev RawPoint : Type := List ℚ

/-- A raw segment, the shape `simple_path_to_line_segments` emits:
`[prev, this]` with list-shaped endpoints. -/
abbrev RawSeg : Type := RawPoint × RawPoint

/-- The Python `errors = set([])` of `simple_path_to_line_segments`, modelled
as a duplicate-free list: `add` keeps a message already present unchanged and
otherwise appends it.  Membership and cardinality are exactly the Python
set's; the list order is a modelling artefact (a CPython `str` set iterates
in hash order, which is not a function of the input), and no theorem below
relies on it. -/
def addError (errors : List String) (msg : String) : List String :=
  if msg ∈ errors then errors else errors ++ [msg]

/-- The warning text of the `cmd[0] == 'C'` branch. -/
def curveMsg : String :=
  "Curve node detected (svg type C), this node will be handled as a regular node"

/-- The warning text of the final `else` branch, for an unsupported command
kind `k` (Python `format` of the message template). -/
def invalidMsg (k : String) : String :=
  "Invalid node type detected: " ++ k ++ ". This script only handle type M, L, Z"

/-- Loop state of `simple_path_to_line_segments`: the accumulated segments,
the `first` and `prev` points and the error set.  The Python initialiser
`line_segments = first = prev = this = []` makes the four names alias one
list object; the aliases are rebound before any observable difference for
every command list that begins with a MoveTo (the shape `to_arrays` always
produces), so the state is modelled by value. -/
structure SegState : Type where
  line_segments : List RawSeg
  first : RawPoint
  prev : RawPoint
  errors : List String
deriving DecidableEq

/-- One iteration of the `for cmd in path` loop of
`simple_path_to_line_segments`: dispatch on `cmd[0]` over `'M'`, `'L'`,
`'Z'`, `'C'` and the `else` branch, then unconditionally `prev = this`.
The `'C'` branch reads `this[4], this[5]` (the curve's end point; Python
would raise on shorter parameter lists, which `to_arrays` never produces;
out-of-range reads are modelled with a default of `0`). -/
def segStep (st : SegState) (cmd : String × List ℚ) : SegState :=
  let this := cmd.2
  let st' : SegState :=
    if cmd.1 = "M" then
      if st.first = [] then { st with first := this } else st
    else if cmd.1 = "L" then
      { st with line_segments := st.line_segments ++ [(st.prev, this)] }
    else if cmd.1 = "Z" then
      { st with line_segments := st.line_segments ++ [(st.prev, st.first)], first := [] }
    else if cmd.1 = "C" then
      { st with
          line_segments := st.line_segments ++ [(st.prev, [this.getD 4 0, this.getD 5 0])],
          errors := addError st.errors curveMsg }
    else
      { st with errors := addError st.errors (invalidMsg cmd.1) }
  { st' with prev := this }

/-- `simple_path_to_line_segments(path)`: folds `segStep` over the command
list from the empty state and returns `(line_segments, errors)`. -/
def simple_path_to_line_segments (path : List (String × List ℚ)) :
    List RawSeg × List String :=
  let st := path.foldl segStep ⟨[], [], [], []⟩
  (st.line_segments, st.errors)

/-- A drawing command as `line_segments_to_simple_path` emits it:
`['M', pt]`, `['L', pt]`, or a close (`Z`) — the last is in the command
vocabulary of the surrounding program but is never produced by the
builder. -/
inductive PathCmd : Type
  | moveTo (p : Point) : PathCmd
  | lineTo (p : Point) : PathCmd
  | closePath : PathCmd
deriving DecidableEq

/-- One iteration of the `for line in line_segments` loop of
`line_segments_to_simple_path`: the state is the emitted command list and
the `end` variable (`None` initially).  Emits `['M', start]` when
`end is None or not (approx_equal(end[0], start[0]) and
approx_equal(end[1], start[1]))`, always emits `['L', line[1]]`, and sets
`end = line[1]`. -/
def buildStep (st : List PathCmd × Option Point) (line : Seg) :
    List PathCmd × Option Point :=
  let start := line.1
  let path :=
    match st.2 with
    | none => st.1 ++ [PathCmd.moveTo start]
    | some e =>
        if approx_equal e.1 start.1 && approx_equal e.2 start.2 then st.1
        else st.1 ++ [PathCmd.moveTo start]
  (path ++ [PathCmd.lineTo line.2], some line.2)

/-- `line_segments_to_simple_path(line_segments)`: folds `buildStep` over
the segments starting from the empty path and `end = None`. -/
def line_segments_to_simple_path (line_segments : List Seg) : List PathCmd :=
  (line_segments.foldl buildStep ([], none)).1

/-- `inside_region(point, line_segments, line_segments_max_x)`: builds the
ray `[point, [line_segments_max_x*2.0, point[1]]]`, counts the segments
whose `line_intersection(line[0], line[1], ray[0], ray[1])` is not `None`,
and returns whether the count is odd. -/
def inside_region (point : Point) (line_segments : List Seg)
    (line_segments_max_x : ℚ) : Bool :=
  let ray : Seg := (point, (line_segments_max_x * 2, point.2))
  let crossings : ℕ := line_segments.foldl
    (fun crossings line =>
      if (line_intersection line.1 line.2 ray.1 ray.2).isSome then crossings + 1
      else crossings) 0
  crossings % 2 == 1

/-- `cull_segmented_line`: keeps just the segments of `segmented_line`
whose midpoint is `inside_region` of `line_segments`. -/
def cull_segmented_line (segmented_line : List Seg) (line_segments : List Seg)
    (line_segments_max_x : ℚ) : List Seg :=
  segmented_line.filter
    (fun segment => inside_region (mid_point segment) line_segments line_segments_max_x)

/-- `clip_line(line, line_segments)`: starts from `[line]` and, for each
clipping segment in order, rewrites every working piece: a piece whose
`line_intersection` with the clipping segment is `None` is kept, otherwise
it is replaced by the two pieces split at the intersection point. -/
def clip_line (line : Seg) (line_segments : List Seg) : List Seg :=
  line_segments.foldl
    (fun lines_read segment =>
      lines_read.flatMap (fun line =>
        match line_intersection line.1 line.2 segment.1 segment.2 with
        | none => [line]
        | some intersect => [(line.1, intersect), (intersect, line.2)]))
    [line]

/-- `clip_line_segments(line_segments_to_clip, clipping_line_segments)`:
for each subject segment in order, split it with `clip_line` and cull the
pieces with `cull_segmented_line`, concatenating the survivors. -/
def clip_line_segments (line_segments_to_clip clipping_line_segments : List Seg) :
    List Seg :=
  line_segments_to_clip.foldl
    (fun clipped_lines line_to_clip =>
      clipped_lines ++
        cull_segmented_line (clip_line line_to_clip clipping_line_segments)
          clipping_line_segments (max_x clipping_line_segments))
    []

/-! ### Definitions written from the spec's words, for comparison -/

/-- The x coordinates of all segment endpoints, in order. -/
def endpointXs (line_segments : List Seg) : List ℚ :=
  line_segments.flatMap (fun line => [line.1.1, line.2.1])

/-- The spec's description of `maxX`: "maximum x over all segment
endpoints; returns 0.0 for an empty segment set". -/
def maxX_spec (line_segments : List Seg) : ℚ :=
  match endpointXs line_segments with
  | [] => 0
  | x :: xs => xs.foldl max x

/-- The spec's description of the path builder: "For each segment in order:
if `currentEnd` is empty or not `approxEqual` to segment.from, emit
MoveTo(segment.from); always emit LineTo(segment.to); set
currentEnd = segment.to", written as a direct recursion carrying
`currentEnd`. -/
def buildSpec (currentEnd : Option Point) : List Seg → List PathCmd
  | [] => []
  | line :: rest =>
      (if (match currentEnd with
           | none => true
           | some e => !(approx_equal e.1 line.1.1 && approx_equal e.2 line.1.2)) then
        [PathCmd.moveTo line.1]
      else []) ++ [PathCmd.lineTo line.2] ++ buildSpec (some line.2) rest

/-! ## Helper lemmas -/

/-- A quantity that fails the `approx_equal`-to-zero test is nonzero. -/
theorem ne_zero_of_approx_equal_false {a : ℚ} (h : approx_equal a 0 = false) :
    a ≠ 0 := by
  intro ha
  rw [ha] at h
  norm_num [approx_equal, TOLERANCE] at h

/-- The parallel/colinear branch: an `approx_equal` denominator yields
`None`. -/
theorem line_intersection_eq_none_of_approx (l1_from l1_to l2_from l2_to : Point)
    (h : approx_equal (denom l1_from l1_to l2_from l2_to) 0 = true) :
    line_intersection l1_from l1_to l2_from l2_to = none := by
  simp [line_intersection, h]

/-- The non-parallel branch, characterised: the result is `some p` exactly
when `s` and `t` both lie in `[0, 1]` and `p` is the point the code
builds from `t`. -/
theorem line_intersection_eq_some_iff (l1_from l1_to l2_from l2_to p : Point)
    (h : approx_equal (denom l1_from l1_to l2_from l2_to) 0 = false) :
    line_intersection l1_from l1_to l2_from l2_to = some p ↔
      (0 ≤ sParam l1_from l1_to l2_from l2_to ∧
       sParam l1_from l1_to l2_from l2_to ≤ 1 ∧
       0 ≤ tParam l1_from l1_to l2_from l2_to ∧
       tParam l1_from l1_to l2_from l2_to ≤ 1 ∧
       p = (l1_from.1 + tParam l1_from l1_to l2_from l2_to * (l1_to.1 - l1_from.1),
            l1_from.2 + tParam l1_from l1_to l2_from l2_to * (l1_to.2 - l1_from.2))) := by
  simp only [line_intersection, h, Bool.false_eq_true, if_false]
  split_ifs with hc
  · simp only [Option.some.injEq]
    constructor
    · rintro rfl
      exact ⟨hc.1, hc.2.1, hc.2.2.1, hc.2.2.2, rfl⟩
    · rintro ⟨-, -, -, -, rfl⟩
      rfl
  · constructor
    · rintro ⟨⟩
    · rintro ⟨h1, h2, h3, h4, -⟩
      exact absurd ⟨h1, h2, h3, h4⟩ hc

/-- When the `s` and `t` numerators are `σ * denominator` and
`τ * denominator` with `σ, τ ∈ [0, 1]` and the denominator passes the
tolerance test, the intersection is the point built from `τ`. -/
theorem line_intersection_eq_some_of_params (l1_from l1_to l2_from l2_to : Point)
    (σ τ : ℚ) (h : approx_equal (denom l1_from l1_to l2_from l2_to) 0 = false)
    (hs : -(l1_to.2 - l1_from.2) * (l1_from.1 - l2_from.1) +
        (l1_to.1 - l1_from.1) * (l1_from.2 - l2_from.2) =
        σ * denom l1_from l1_to l2_from l2_to)
    (ht : (l2_to.1 - l2_from.1) * (l1_from.2 - l2_from.2) -
        (l2_to.2 - l2_from.2) * (l1_from.1 - l2_from.1) =
        τ * denom l1_from l1_to l2_from l2_to)
    (hσ0 : 0 ≤ σ) (hσ1 : σ ≤ 1) (hτ0 : 0 ≤ τ) (hτ1 : τ ≤ 1) :
    line_intersection l1_from l1_to l2_from l2_to =
      some (l1_from.1 + τ * (l1_to.1 - l1_from.1),
            l1_from.2 + τ * (l1_to.2 - l1_from.2)) := by
  have hd : denom l1_from l1_to l2_from l2_to ≠ 0 := ne_zero_of_approx_equal_false h
  have hsv : sParam l1_from l1_to l2_from l2_to = σ := by
    rw [sParam, hs, mul_div_assoc, div_self hd, mul_one]
  have htv : tParam l1_from l1_to l2_from l2_to = τ := by
    rw [tParam, ht, mul_div_assoc, div_self hd, mul_one]
  rw [line_intersection_eq_some_iff _ _ _ _ _ h]
  rw [hsv, htv]
  exact ⟨hσ0, hσ1, hτ0, hτ1, rfl⟩

/-! ## Claims -/

/-- C1 (counterexample): `line_intersection` on a first point with a single
coordinate component does not produce a typed error that a caller could
catch — it reaches the `IndexError` handler, which prints the curve-hint
message and terminates the whole process via `sys.exit()` (modelled by
`RawResult.processAbort`; the result type has no error constructor because
the code raises none). -/
theorem line_intersection_raw_short_input_aborts_process :
    line_intersection_raw [(0 : ℚ)] [1, 1] [0, 0] [1, 0] = RawResult.processAbort := by
  rfl

/-- C1 (amended): whenever one of the four endpoint lists has fewer than
two coordinate components, `line_intersection` prints the curve-hint error
message and aborts the entire process via `sys.exit()`; no typed error
reaches the caller and the remainder of the batch is not processed. -/
theorem line_intersection_raw_abort_of_short (l1_from l1_to l2_from l2_to : List ℚ)
    (h : l1_from.length < 2 ∨ l1_to.length < 2 ∨ l2_from.length < 2 ∨
      l2_to.length < 2) :
    line_intersection_raw l1_from l1_to l2_from l2_to = RawResult.processAbort := by
  rcases l1_from with - | ⟨x1, - | ⟨y1, t1⟩⟩ <;>
    rcases l1_to with - | ⟨x2, - | ⟨y2, t2⟩⟩ <;>
      rcases l2_from with - | ⟨x3, - | ⟨y3, t3⟩⟩ <;>
        rcases l2_to with - | ⟨x4, - | ⟨y4, t4⟩⟩ <;>
          first
            | rfl
            | (exfalso; simp [List.length] at h; omega)

/-- C1 (witness): a concrete malformed call: the second point has one
component, so the process is aborted. -/
theorem line_intersection_raw_abort_witness :
    line_intersection_raw [(5 : ℚ), 5] [7] [0, 0] [2, 2] = RawResult.processAbort :=
  line_intersection_raw_abort_of_short [(5 : ℚ), 5] [7] [0, 0] [2, 2]
    (Or.inr (Or.inl (by decide)))

/-- C2: `line_intersection` returns `None` when the cross-product
denominator of the direction vectors is within tolerance of zero;
otherwise it returns `some p` exactly when both parameters `s` and `t`
lie in `[0, 1]`, and then `p = l1_from + t · (l1_to − l1_from)`; in all
other cases it returns `None` (being an `Option`, any result that is not
`some` is `none`). -/
theorem line_intersection_characterisation (l1_from l1_to l2_from l2_to : Point) :
    (approx_equal (denom l1_from l1_to l2_from l2_to) 0 = true →
      line_intersection l1_from l1_to l2_from l2_to = none) ∧
    (approx_equal (denom l1_from l1_to l2_from l2_to) 0 = false →
      ∀ p : Point,
        line_intersection l1_from l1_to l2_from l2_to = some p ↔
          (0 ≤ sParam l1_from l1_to l2_from l2_to ∧
           sParam l1_from l1_to l2_from l2_to ≤ 1 ∧
           0 ≤ tParam l1_from l1_to l2_from l2_to ∧
           tParam l1_from l1_to l2_from l2_to ≤ 1 ∧
           p = (l1_from.1 + tParam l1_from l1_to l2_from l2_to * (l1_to.1 - l1_from.1),
                l1_from.2 + tParam l1_from l1_to l2_from l2_to * (l1_to.2 - l1_from.2)))) :=
  ⟨line_intersection_eq_none_of_approx l1_from l1_to l2_from l2_to,
   fun h p => line_intersection_eq_some_iff l1_from l1_to l2_from l2_to p h⟩

/-- C3 (counterexample): the segments `(0,0)–(1,0)` and `(1,0)–(2,0)`
share exactly one endpoint, `(1,0)` (the endpoint sets meet only there),
yet `line_intersection` returns `None`, not that endpoint: the segments
are colinear, so the denominator is exactly zero and the parallel branch
fires first. -/
theorem shared_endpoint_not_returned_when_colinear :
    line_intersection ((0 : ℚ), (0 : ℚ)) (1, 0) (1, 0) (2, 0) = none ∧
    line_intersection ((0 : ℚ), (0 : ℚ)) (1, 0) (1, 0) (2, 0) ≠ some (1, 0) := by
  decide

/-- Shared endpoint, configuration from–from (`s = 0`, `t = 0`). -/
theorem line_intersection_shared_ff (P b d : Point)
    (h : approx_equal (denom P b P d) 0 = false) :
    line_intersection P b P d = some P := by
  rw [line_intersection_eq_some_of_params P b P d 0 0 h
    (by simp only [denom]; ring) (by simp only [denom]; ring)
    le_rfl zero_le_one le_rfl zero_le_one]
  rw [show P.1 + 0 * (b.1 - P.1) = P.1 from by ring,
      show P.2 + 0 * (b.2 - P.2) = P.2 from by ring]

/-- Shared endpoint, configuration from–to (`s = 1`, `t = 0`). -/
theorem line_intersection_shared_ft (P b c : Point)
    (h : approx_equal (denom P b c P) 0 = false) :
    line_intersection P b c P = some P := by
  rw [line_intersection_eq_some_of_params P b c P 1 0 h
    (by simp only [denom]; ring) (by simp only [denom]; ring)
    zero_le_one le_rfl le_rfl zero_le_one]
  rw [show P.1 + 0 * (b.1 - P.1) = P.1 from by ring,
      show P.2 + 0 * (b.2 - P.2) = P.2 from by ring]

/-- Shared endpoint, configuration to–from (`s = 0`, `t = 1`). -/
theorem line_intersection_shared_tf (a P d : Point)
    (h : approx_equal (denom a P P d) 0 = false) :
    line_intersection a P P d = some P := by
  rw [line_intersection_eq_some_of_params a P P d 0 1 h
    (by simp only [denom]; ring) (by simp only [denom]; ring)
    le_rfl zero_le_one zero_le_one le_rfl]
  rw [show a.1 + 1 * (P.1 - a.1) = P.1 from by ring,
      show a.2 + 1 * (P.2 - a.2) = P.2 from by ring]

/-- Shared endpoint, configuration to–to (`s = 1`, `t = 1`). -/
theorem line_intersection_shared_tt (a P c : Point)
    (h : approx_equal (denom a P c P) 0 = false) :
    line_intersection a P c P = some P := by
  rw [line_intersection_eq_some_of_params a P c P 1 1 h
    (by simp only [denom]; ring) (by simp only [denom]; ring)
    zero_le_one le_rfl zero_le_one le_rfl]
  rw [show a.1 + 1 * (P.1 - a.1) = P.1 from by ring,
      show a.2 + 1 * (P.2 - a.2) = P.2 from by ring]

/-- C3 (amended): two segments sharing an endpoint `P` are mapped by
`line_intersection` to exactly `some P` — provided the cross-product
denominator of their direction vectors is not within tolerance of zero
(near-parallel and colinear configurations, which share an endpoint but
fall into the `approx_equal` branch, return `None` instead). -/
theorem line_intersection_shared_endpoint (l1_from l1_to l2_from l2_to P : Point)
    (hA : P = l1_from ∨ P = l1_to) (hB : P = l2_from ∨ P = l2_to)
    (h : approx_equal (denom l1_from l1_to l2_from l2_to) 0 = false) :
    line_intersection l1_from l1_to l2_from l2_to = some P := by
  rcases hA with rfl | rfl <;> rcases hB with rfl | rfl
  · exact line_intersection_shared_ff _ _ _ h
  · exact line_intersection_shared_ft _ _ _ h
  · exact line_intersection_shared_tf _ _ _ h
  · exact line_intersection_shared_tt _ _ _ h

/-- C3 (witness): the perpendicular segments `(0,0)–(1,0)` and
`(0,0)–(0,1)` share the endpoint `(0,0)` and their denominator is `1`, so
the shared endpoint is returned. -/
theorem line_intersection_shared_endpoint_witness :
    line_intersection ((0 : ℚ), (0 : ℚ)) (1, 0) (0, 0) (0, 1) = some (0, 0) :=
  line_intersection_shared_endpoint ((0 : ℚ), (0 : ℚ)) (1, 0) (0, 0) (0, 1)
    ((0 : ℚ), (0 : ℚ)) (Or.inl rfl) (Or.inl rfl) (by decide)

/-- Pulling an element out of a `max`-fold's initial value. -/
theorem foldl_max_init (xs : List ℚ) :
    ∀ a b : ℚ, xs.foldl max (max a b) = max a (xs.foldl max b) := by
  induction xs with
  | nil => intro a b; simp
  | cons x xs ih =>
      intro a b
      rw [List.foldl_cons, List.foldl_cons, max_assoc, ih]

/-- The `max_x` fold equals a plain `max`-fold over the endpoint x
coordinates. -/
theorem max_x_foldl_eq (line_segments : List Seg) :
    ∀ a : ℚ,
      line_segments.foldl (fun maxx line => max (max maxx line.1.1) line.2.1) a =
        (endpointXs line_segments).foldl max a := by
  induction line_segments with
  | nil => intro a; simp [endpointXs]
  | cons l ls ih =>
      intro a
      rw [List.foldl_cons, ih]
      simp only [endpointXs, List.flatMap_cons, List.cons_append, List.nil_append,
        List.foldl_cons]

/-- C4 (counterexample): for the single segment `(-5,0)–(-3,0)` the maximum
x coordinate over all endpoints is `-3`, but `max_x` returns `0` — the
fold starts from the documented default `0.0`, so all-negative-x geometry
does not yield the endpoint maximum. -/
theorem max_x_not_endpoint_max_on_negative_x :
    max_x [(((-5 : ℚ), 0), ((-3 : ℚ), 0))] ≠
      maxX_spec [(((-5 : ℚ), 0), ((-3 : ℚ), 0))] ∧
    max_x [(((-5 : ℚ), 0), ((-3 : ℚ), 0))] = 0 ∧
    maxX_spec [(((-5 : ℚ), 0), ((-3 : ℚ), 0))] = -3 := by
  decide

/-- C4 (amended): `max_x` returns the maximum of `0.0` and all segment
endpoint x coordinates — hence the endpoint maximum whenever some endpoint
has nonnegative x, and `0.0` on the empty segment set (where the spec's
endpoint maximum is also defined as `0.0`). -/
theorem max_x_eq_max_zero_spec (line_segments : List Seg) :
    max_x line_segments = max 0 (maxX_spec line_segments) := by
  rw [max_x, max_x_foldl_eq]
  rcases he : endpointXs line_segments with - | ⟨x, xs⟩
  · simp [maxX_spec, he]
  · rw [maxX_spec, he, List.foldl_cons, show max (0 : ℚ) x = max 0 x from rfl,
      foldl_max_init]

/-- The crossing counter of `inside_region` as a `countP`. -/
theorem crossings_foldl_eq_countP (line_segments : List Seg) (q : Seg → Bool) :
    ∀ n : ℕ,
      line_segments.foldl (fun crossings line =>
        if q line then crossings + 1 else crossings) n =
        n + line_segments.countP q := by
  induction line_segments with
  | nil => intro n; simp
  | cons l ls ih =>
      intro n
      rw [List.foldl_cons, List.countP_cons]
      by_cases hq : q l
      · rw [if_pos hq, ih, if_pos hq]
        omega
      · rw [if_neg hq, ih, if_neg hq]
        omega

/-- C5: `inside_region point line_segments line_segments_max_x` casts the
horizontal ray from `point` to `(2·line_segments_max_x, point.y)`, and
returns `true` exactly when the number of boundary segments whose
`line_intersection` with that ray is a point is odd. -/
theorem inside_region_parity (point : Point) (line_segments : List Seg)
    (line_segments_max_x : ℚ) :
    inside_region point line_segments line_segments_max_x = true ↔
      Odd (line_segments.countP (fun line =>
        (line_intersection line.1 line.2 point
          (2 * line_segments_max_x, point.2)).isSome)) := by
  have hray : (2 * line_segments_max_x, point.2) =
      (line_segments_max_x * 2, point.2) := by
    rw [mul_comm]
  rw [hray, inside_region]
  simp only [crossings_foldl_eq_countP, Nat.zero_add]
  rw [beq_iff_eq, Nat.odd_iff]

/-- C6 (counterexample): an unsupported command (`'A'`) does not leave the
current point unchanged: the unconditional `prev = this` at the end of the
loop body sets it to the unsupported command's operands, so the next
LineTo emits a segment starting at those operands — and changing only the
unsupported command's operands changes the emitted segments. -/
theorem unsupported_command_moves_current_point :
    (simple_path_to_line_segments
        [("M", [0, 0]), ("A", [3, 4]), ("L", [1, 1])]).1 = [([3, 4], [1, 1])] ∧
    (simple_path_to_line_segments
        [("M", [0, 0]), ("A", [3, 4]), ("L", [1, 1])]).1 ≠
      (simple_path_to_line_segments
        [("M", [0, 0]), ("A", [5, 6]), ("L", [1, 1])]).1 := by
  decide

/-- C6 (amended): a command of an unsupported kind records the
"Invalid node type detected" warning and sets the current point `prev` to
the command's operand list (the loop's unconditional `prev = this`), so
segments emitted afterwards can start at the unsupported command's
operands; segments and `first` are untouched. -/
theorem segStep_unsupported (st : SegState) (k : String) (params : List ℚ)
    (hM : k ≠ "M") (hL : k ≠ "L") (hZ : k ≠ "Z") (hC : k ≠ "C") :
    segStep st (k, params) =
      { st with prev := params, errors := addError st.errors (invalidMsg k) } := by
  simp [segStep, hM, hL, hZ, hC]

/-- C6 (witness): one concrete unsupported command, kind `'A'`, from the
empty segmenter state. -/
theorem segStep_unsupported_witness :
    segStep ⟨[], [], [], []⟩ ("A", [3, 4]) =
      ⟨[], [], [3, 4], addError [] (invalidMsg "A")⟩ :=
  segStep_unsupported ⟨[], [], [], []⟩ "A" [3, 4] (by decide) (by decide) (by decide)
    (by decide)

/-- The half-overlap subject of the idempotence analysis: the single
horizontal segment `(10,0)–(20,0)`. -/
def cexSubject : List Seg := [(((10 : ℚ), 0), (20, 0))]

/-- The square boundary `(5,−5) (15,−5) (15,15) (5,15)` of the idempotence
analysis, decomposed into its four directed edges. -/
def cexBoundary : List Seg :=
  [(((5 : ℚ), -5), (15, -5)), ((15, -5), (15, 15)), ((15, 15), (5, 15)),
    ((5, 15), (5, -5))]

set_option maxRecDepth 100000 in
/-- C8 (counterexample): `clip_line_segments` is not idempotent in its
first argument: re-clipping the already clipped half-overlap subject
against the same boundary yields a different segment list. -/
theorem clip_not_idempotent :
    clip_line_segments (clip_line_segments cexSubject cexBoundary) cexBoundary ≠
      clip_line_segments cexSubject cexBoundary := by
  decide

set_option maxRecDepth 100000 in
/-- C8 (amended): re-clipping a clipped result can append degenerate
zero-length sub-segments where a surviving sub-segment's endpoint lies on
a boundary segment: the kept piece is split again at its own endpoint and
the zero-length fragment's midpoint passes the parity test.  Concretely,
the half-overlap subject clips to `(10,0)–(15,0)`, and re-clipping yields
that segment plus the degenerate `(15,0)–(15,0)`. -/
theorem clip_twice_appends_degenerate :
    clip_line_segments cexSubject cexBoundary = [(((10 : ℚ), 0), (15, 0))] ∧
    clip_line_segments (clip_line_segments cexSubject cexBoundary) cexBoundary =
      [(((10 : ℚ), 0), (15, 0)), ((15, 0), (15, 0))] := by
  decide

/-- Unrolling the builder's fold: from any accumulated path and any
`end` value, the commands appended are exactly `buildSpec`'s. -/
theorem buildStep_foldl_eq (line_segments : List Seg) :
    ∀ (acc : List PathCmd) (e : Option Point),
      (line_segments.foldl buildStep (acc, e)).1 =
        acc ++ buildSpec e line_segments := by
  induction line_segments with
  | nil => intro acc e; simp [buildSpec]
  | cons l ls ih =>
      intro acc e
      rw [List.foldl_cons]
      cases e with
      | none =>
          simp only [buildStep]
          rw [ih]
          simp [buildSpec]
      | some p =>
          simp only [buildStep]
          rcases hb : approx_equal p.1 l.1.1 && approx_equal p.2 l.1.2 with - | -
          · simp only [hb, Bool.false_eq_true, if_false]
            rw [ih]
            simp [buildSpec, hb]
          · simp only [hb, if_true]
            rw [ih]
            simp [buildSpec, hb]

/-- `buildSpec` never emits a close command, from any starting `end`. -/
theorem buildSpec_no_close (line_segments : List Seg) :
    ∀ e : Option Point, PathCmd.closePath ∉ buildSpec e line_segments := by
  induction line_segments with
  | nil => intro e; simp [buildSpec]
  | cons l ls ih =>
      intro e
      simp only [buildSpec, List.append_assoc, List.mem_append]
      push_neg
      refine ⟨?_, ?_, ih (some l.2)⟩
      · split_ifs with hc
        · simp
        · simp
      · simp

/-- C9: the builder emits, per segment in order, `MoveTo(segment.from)`
exactly when there is no previous segment or the previous end point is not
`approx_equal` (in both coordinates) to this segment's start, always
followed by `LineTo(segment.to)` — the `buildSpec` recursion — and no
Close command is ever emitted, so the output is a sequence of open
polylines. -/
theorem line_segments_to_simple_path_spec (line_segments : List Seg) :
    line_segments_to_simple_path line_segments = buildSpec none line_segments ∧
    PathCmd.closePath ∉ line_segments_to_simple_path line_segments := by
  have hspec : line_segments_to_simple_path line_segments =
      buildSpec none line_segments := by
    rw [line_segments_to_simple_path, buildStep_foldl_eq]
    simp
  exact ⟨hspec, hspec ▸ buildSpec_no_close line_segments none⟩

/-- With an empty clipping set every subject segment is culled, from any
accumulator. -/
theorem clip_fold_empty_boundary (line_segments_to_clip : List Seg) :
    ∀ acc : List Seg,
      line_segments_to_clip.foldl
        (fun clipped_lines line_to_clip =>
          clipped_lines ++
            cull_segmented_line (clip_line line_to_clip []) [] (max_x [])) acc =
        acc := by
  induction line_segments_to_clip with
  | nil => intro acc; rfl
  | cons l ls ih =>
      intro acc
      rw [List.foldl_cons,
        show cull_segmented_line (clip_line l []) [] (max_x []) = [] from rfl,
        List.append_nil]
      exact ih acc

/-- C10: clipping any subject against the empty boundary segment set
returns the empty segment set: `max_x` defaults to `0`, every
`inside_region` test counts zero crossings and reports outside, so every
sub-segment of every subject segment is culled. -/
theorem clip_empty_boundary :
    max_x [] = 0 ∧
    (∀ (point : Point) (m : ℚ), inside_region point [] m = false) ∧
    (∀ line_segments_to_clip : List Seg,
      clip_line_segments line_segments_to_clip [] = []) := by
  refine ⟨rfl, fun point m => rfl, fun S => ?_⟩
  rw [clip_line_segments]
  exact clip_fold_empty_boundary S []

end

end DestructiveClip
